import Mathlib

/-!
Verification of the backend child-process supervisor
(`packages/frontend/src-tauri/src/lib.rs`).

The supervisor is embedded shallowly: every interaction with the operating
system (port binding, filesystem probes, canonicalisation, spawning, lock
poisoning) is a field of an `Env` record, and the Rust functions become pure
Lean functions over `Env` plus the explicit process slot
(`Option Child`, the contents of the `BackendProcess` mutex).
-/

namespace ToshikBabe

/-- A filesystem path, modelled as its list of components.
`PathBuf::join` with a relative path appends components without
normalisation, which this representation mirrors. -/
abbrev Path := List String

/-- Rendering of a path, standing in for `Path::display`. -/
def pathDisplay (p : Path) : String := String.intercalate "/" p

/-- Outcome of the non-blocking liveness probe `Child::try_wait` on the
tracked child: `exited` models `Ok(Some(status))`, `running` models
`Ok(None)`, and `probeErr` models `Err(e)`. -/
inductive ChildStatus where
  | exited (code : Int)
  | running
  | probeErr (msg : String)
deriving DecidableEq

/-- A spawned child process handle (`std::process::Child`): its pid and the
behaviour its liveness probe will report. -/
structure Child where
  pid : Nat
  status : ChildStatus
deriving DecidableEq

/-- A command line about to be spawned: the program and its argument list.
Output redirection targets (the two log handles) carry no information
relevant to the verified properties and are omitted. -/
structure Cmd where
  program : String
  args : List String
deriving DecidableEq

/-- The ambient operating-system behaviour for one `start_backend` call:
each field models one fallible external effect the Rust code performs. -/
structure Env where
  /-- Whether the `BackendProcess` mutex is poisoned, making `lock()` fail. -/
  poisoned : Bool
  /-- The message of the lock error, as `e.to_string()` would render it. -/
  lockErr : String
  /-- Whether `TcpListener::bind(("127.0.0.1", port))` succeeds. -/
  bindable : Nat → Bool
  /-- Result of `app.path().app_data_dir()`. -/
  appDataDir : Except String Path
  /-- Result of `fs::create_dir_all`. -/
  createDirAll : Path → Except String Unit
  /-- Result of opening the log file in create-or-append mode. -/
  openLog : Path → Except String Unit
  /-- Result of `log_file.try_clone()`. -/
  cloneLog : Except String Unit
  /-- `std::env::current_exe().ok().and_then(parent)`. -/
  exeDir : Option Path
  /-- Result of `Path::canonicalize`; `some` exactly when the path exists
  and resolves. -/
  canonicalize : Path → Option Path
  /-- Result of `Path::exists`. -/
  pathExists : Path → Bool
  /-- Result of `Command::spawn` on the built command line. -/
  spawn : Cmd → Except String Child

/-- The scanning loop of `find_available_port`: starting at `base`, try
`len` consecutive ports and return the first for which binding succeeds. -/
def scanPorts (bindable : Nat → Bool) : Nat → Nat → Option Nat
  | _, 0 => none
  | port, n + 1 =>
    if bindable port then some port else scanPorts bindable (port + 1) n

/-- `find_available_port`: scan ports 3001 through 3010 in ascending order
and return the first available one (`lib.rs` lines 31 to 38). -/
def find_available_port (bindable : Nat → Bool) : Option Nat :=
  scanPorts bindable 3001 10

/-- The first critical section of `start_backend` (lines 45 to 53): reads
the slot, extracts `child.id()` when a child is present, and changes
nothing. Returns the slot as left behind together with the pid read. -/
def firstCriticalSection (slot : Option Child) : Option Child × Option Nat :=
  match slot with
  | some child => (some child, some child.pid)
  | none => (none, none)

/-- The fixed relative entry-point path `packages/backend/src/index.ts`. -/
def indexTsRel : Path := ["packages", "backend", "src", "index.ts"]

/-- `n` levels of relative ascent, that is `n` components `..`. -/
def parentDirs (n : Nat) : Path := List.replicate n ".."

/-- The ordered candidate list for the entry point (lines 107 to 116):
three relative ascents from the executable directory, or the empty list
when the executable directory is unknown. -/
def scriptCandidates (exeDir : Option Path) : List Path :=
  match exeDir with
  | some dir =>
      [dir ++ parentDirs 3 ++ indexTsRel,
       dir ++ parentDirs 4 ++ indexTsRel,
       dir ++ parentDirs 5 ++ indexTsRel]
  | none => []

/-- The candidate loop (lines 118 to 124): the first candidate whose
canonicalisation succeeds, in order. -/
def firstCanonical (canon : Path → Option Path) : List Path → Option Path
  | [] => none
  | c :: rest =>
    match canon c with
    | some p => some p
    | none => firstCanonical canon rest

/-- Entry-point resolution (lines 99 to 135): first matching candidate,
else the working-directory fallback `packages/backend/src/index.ts` when it
exists (canonicalised when possible), else nothing. -/
def resolveBackendScript (env : Env) : Option Path :=
  match firstCanonical env.canonicalize (scriptCandidates env.exeDir) with
  | some p => some p
  | none =>
      if env.pathExists indexTsRel then
        some ((env.canonicalize indexTsRel).getD indexTsRel)
      else none

/-- `Path::parent`: drop the final component; `none` on the empty path. -/
def parent (p : Path) : Option Path :=
  match p with
  | [] => none
  | _ :: _ => some p.dropLast

/-- The `.env` location (lines 143 to 149): four `parent` steps up from the
resolved script, joined with `.env`. -/
def envFilePath (script : Path) : Option Path :=
  (((((parent script).bind parent).bind parent).bind parent)).map
    (fun root => root ++ [".env"])

/-- The argument list built for the child command (lines 151 to 163):
`run`, then `--env-file=<path>` when the `.env` file exists, then the
script, then `--port <port>`. -/
def buildArgs (pathExists : Path → Bool) (script : Path) (port : Nat) :
    List String :=
  ["run"] ++
    (match envFilePath script with
     | some p => if pathExists p then ["--env-file=" ++ pathDisplay p] else []
     | none => []) ++
    [pathDisplay script, "--port", toString port]

/-- The observable outcome of one `start_backend` call: the returned
`Result<u16, String>`, the final contents of the process slot, and the list
of spawn system calls attempted. -/
structure LaunchResult where
  result : Except String Nat
  slot : Option Child
  spawned : List Cmd

/-- The spawn and handle installation (lines 160 to 172): attempt the
spawn system call; on failure surface the OS error, on success install the
child in the slot under a final lock acquisition and return the port. -/
def installHandle (env : Env) (port : Nat) (cmd : Cmd) : LaunchResult :=
  match env.spawn cmd with
  | Except.error e =>
      ⟨Except.error ("Failed to spawn bun backend: " ++ e), none, [cmd]⟩
  | Except.ok child =>
      if env.poisoned then ⟨Except.error env.lockErr, none, [cmd]⟩
      else ⟨Except.ok port, some child, [cmd]⟩

/-- The tail of `start_backend` from line 75 on, entered with the slot
already cleared: port allocation, log setup, entry-point resolution,
command construction, spawn, and installation of the new handle. -/
def launchAfterCheck (env : Env) : LaunchResult :=
  match find_available_port env.bindable with
  | none => ⟨Except.error "No available port in range 3001-3010", none, []⟩
  | some port =>
    match env.appDataDir with
    | Except.error e =>
        ⟨Except.error ("Failed to resolve app data dir: " ++ e), none, []⟩
    | Except.ok appDataDir =>
      match env.createDirAll appDataDir with
      | Except.error e =>
          ⟨Except.error ("Failed to create app data dir: " ++ e), none, []⟩
      | Except.ok _ =>
        match env.openLog (appDataDir ++ ["backend.log"]) with
        | Except.error e =>
            ⟨Except.error ("Failed to open backend.log: " ++ e), none, []⟩
        | Except.ok _ =>
          match env.cloneLog with
          | Except.error e =>
              ⟨Except.error ("Failed to clone log file handle: " ++ e),
               none, []⟩
          | Except.ok _ =>
            match resolveBackendScript env with
            | none =>
                ⟨Except.error "Cannot locate packages/backend/src/index.ts",
                 none, []⟩
            | some script =>
              installHandle env port ⟨"bun", buildArgs env.pathExists script port⟩

/-- The Tauri command `start_backend` (lines 43 to 173). Each `lock()` call
fails when the mutex is poisoned, surfacing the lock error. The first
critical section only reads; the second re-checks liveness with `try_wait`,
clearing the slot on `Ok(Some(_))` and on `Err(_)` and refusing with
`Backend is already running` on `Ok(None)`. -/
def start_backend (env : Env) (slot : Option Child) : LaunchResult :=
  if env.poisoned then ⟨Except.error env.lockErr, slot, []⟩ else
  match (firstCriticalSection slot).1 with
  | some child =>
    match child.status with
    | ChildStatus.exited _ => launchAfterCheck env
    | ChildStatus.running =>
        ⟨Except.error "Backend is already running", some child, []⟩
    | ChildStatus.probeErr _ => launchAfterCheck env
  | none => launchAfterCheck env

/-- A host run event, as matched by the cleanup plugin (line 14): only
`Exit` triggers the handler body. -/
inductive RunEvent where
  | exit
  | other
deriving DecidableEq

/-- An OS-level action the cleanup handler performs on the child. -/
inductive CleanupAction where
  | kill (pid : Nat)
  | wait (pid : Nat)
deriving DecidableEq

/-- The critical section of the cleanup handler (lines 16 to 24), entered
with the lock held: when a child is present, kill it then reap it (both
results discarded by the source); in every case set the slot to `None`.
Returns the final slot and the actions performed, in order. -/
def cleanupCriticalSection (slot : Option Child) :
    Option Child × List CleanupAction :=
  match slot with
  | some child => (none, [CleanupAction.kill child.pid,
                          CleanupAction.wait child.pid])
  | none => (none, [])

/-- The `on_event` callback installed by `backend_cleanup_plugin` (lines 12
to 28): on `Exit`, when the `BackendProcess` state is managed and the lock
is acquired, run the critical section; otherwise leave the slot untouched
and perform nothing. The callback is total, so it never panics. -/
def backend_cleanup_plugin_on_event (event : RunEvent)
    (hasState lockOk : Bool) (slot : Option Child) :
    Option Child × List CleanupAction :=
  match event with
  | RunEvent.exit =>
      if hasState then
        if lockOk then cleanupCriticalSection slot
        else (slot, [])
      else (slot, [])
  | RunEvent.other => (slot, [])

/-! Concrete environments used by witnesses and counterexamples. -/

/-- A healthy environment: lock fine, every port bindable, filesystem
cooperative, no executable directory, working-directory fallback absent,
spawn failing (its value is irrelevant to the early-return claims). -/
def envW : Env :=
  ⟨false, "lock poisoned", fun _ => true, Except.ok ["data"],
   fun _ => Except.ok (), fun _ => Except.ok (), Except.ok (),
   none, fun _ => none, fun _ => false, fun _ => Except.error "no bun"⟩

/-- A live child with pid 7, as `try_wait` would report `Ok(None)`. -/
def childRunning : Child := ⟨7, ChildStatus.running⟩

/-- A child with pid 3 whose liveness probe errors. -/
def childProbeErr : Child := ⟨3, ChildStatus.probeErr "EPERM"⟩

/-- An environment in which every port in the range is occupied. -/
def envNoPort : Env :=
  ⟨false, "lock poisoned", fun _ => false, Except.ok ["data"],
   fun _ => Except.ok (), fun _ => Except.ok (), Except.ok (),
   none, fun _ => none, fun _ => false, fun _ => Except.error "no bun"⟩

/-- An environment with no executable directory, nothing canonicalisable,
and every plain existence probe succeeding: resolution takes the
working-directory fallback, and the `.env` file is found. -/
def envCwdFallback : Env :=
  ⟨false, "lock poisoned", fun _ => true, Except.ok ["data"],
   fun _ => Except.ok (), fun _ => Except.ok (), Except.ok (),
   none, fun _ => none, fun _ => true,
   fun _ => Except.ok ⟨42, ChildStatus.running⟩⟩

/-! Helper lemmas shared by several claims. -/

/-- A successful scan returns the first bindable port of the window. -/
theorem scanPorts_eq_some (b : Nat → Bool) :
    ∀ len base p, scanPorts b base len = some p →
      base ≤ p ∧ p < base + len ∧ b p = true ∧
        ∀ q, base ≤ q → q < p → b q = false := by
  intro len
  induction len with
  | zero =>
      intro base p h
      simp [scanPorts] at h
  | succ n ih =>
      intro base p h
      by_cases hb : b base = true
      · simp [scanPorts, hb] at h
        subst h
        exact ⟨Nat.le_refl _, by omega, hb,
          fun q hq1 hq2 => absurd hq2 (Nat.not_lt.mpr hq1)⟩
      · simp [scanPorts, hb] at h
        obtain ⟨h1, h2, h3, h4⟩ := ih (base + 1) p h
        refine ⟨by omega, by omega, h3, fun q hq1 hq2 => ?_⟩
        rcases Nat.eq_or_lt_of_le hq1 with hq | hq
        · rw [← hq]
          simpa using hb
        · exact h4 q hq hq2

/-- A scan fails exactly when no port of the window is bindable. -/
theorem scanPorts_eq_none (b : Nat → Bool) :
    ∀ len base, scanPorts b base len = none ↔
      ∀ q, base ≤ q → q < base + len → b q = false := by
  intro len
  induction len with
  | zero =>
      intro base
      constructor
      · intro _ q hq1 hq2
        exact absurd hq2 (by omega)
      · intro _
        simp [scanPorts]
  | succ n ih =>
      intro base
      by_cases hb : b base = true
      · constructor
        · intro h
          simp [scanPorts, hb] at h
        · intro hall
          have := hall base (Nat.le_refl _) (by omega)
          rw [hb] at this
          exact absurd this (by simp)
      · have hb' : b base = false := by simpa using hb
        constructor
        · intro h hq hq1 hq2
          simp [scanPorts, hb'] at h
          rcases Nat.eq_or_lt_of_le hq1 with he | he
          · rw [← he]; exact hb'
          · exact (ih (base + 1)).mp h hq he (by omega)
        · intro hall
          simp only [scanPorts, hb', if_false]
          exact (ih (base + 1)).mpr fun q hq1 hq2 => hall q (by omega) (by omega)

/-- Handle installation returns `ok` only with the chosen port. -/
theorem installHandle_result_ok (env : Env) (port : Nat) (cmd : Cmd)
    (p : Nat) (h : (installHandle env port cmd).result = Except.ok p) :
    port = p := by
  unfold installHandle at h
  repeat' split at h
  all_goals simp_all

/-- Handle installation leaves the slot empty unless it returned a port. -/
theorem installHandle_slot_cases (env : Env) (port : Nat) (cmd : Cmd) :
    (installHandle env port cmd).slot = none ∨
      ∃ p, (installHandle env port cmd).result = Except.ok p := by
  unfold installHandle
  repeat' split
  all_goals simp

/-- The launch tail returns `ok p` only for the port the allocator chose. -/
theorem launchAfterCheck_result_ok (env : Env) (p : Nat)
    (h : (launchAfterCheck env).result = Except.ok p) :
    find_available_port env.bindable = some p := by
  unfold launchAfterCheck at h
  repeat' split at h
  all_goals try have hpp := installHandle_result_ok _ _ _ _ h
  all_goals simp_all

/-- The launch tail either leaves the slot empty or returned a port. -/
theorem launchAfterCheck_slot_cases (env : Env) :
    (launchAfterCheck env).slot = none ∨
      ∃ p, (launchAfterCheck env).result = Except.ok p := by
  unfold launchAfterCheck
  repeat' split
  all_goals try exact installHandle_slot_cases _ _ _
  all_goals simp

/-- With a healthy lock, a `start_backend` call either refuses because of a
live child or behaves as the launch tail on a cleared slot. -/
theorem start_backend_cases (env : Env) (slot : Option Child)
    (hlock : env.poisoned = false) :
    (∃ child, slot = some child ∧ child.status = ChildStatus.running ∧
        start_backend env slot =
          ⟨Except.error "Backend is already running", some child, []⟩) ∨
      start_backend env slot = launchAfterCheck env := by
  cases slot with
  | none =>
      right
      simp [start_backend, firstCriticalSection, hlock]
  | some child =>
      cases hst : child.status with
      | running =>
          left
          exact ⟨child, rfl, hst,
            by simp [start_backend, firstCriticalSection, hlock, hst]⟩
      | exited code =>
          right
          simp [start_backend, firstCriticalSection, hlock, hst]
      | probeErr msg =>
          right
          simp [start_backend, firstCriticalSection, hlock, hst]

/-- Any port returned by `start_backend` came from the allocator. -/
theorem start_backend_result_ok_port (env : Env) (slot : Option Child)
    (p : Nat) (h : (start_backend env slot).result = Except.ok p) :
    find_available_port env.bindable = some p := by
  by_cases hlock : env.poisoned = true
  · simp [start_backend, hlock] at h
  · have hl : env.poisoned = false := by simpa using hlock
    rcases start_backend_cases env slot hl with ⟨c, _, _, heq⟩ | heq
    · rw [heq] at h
      simp at h
    · rw [heq] at h
      exact launchAfterCheck_result_ok env p h

/-- The candidate loop fails exactly when no candidate canonicalises. -/
theorem firstCanonical_eq_none (canon : Path → Option Path) :
    ∀ l, firstCanonical canon l = none ↔ ∀ c ∈ l, canon c = none := by
  intro l
  induction l with
  | nil => simp [firstCanonical]
  | cons c rest ih =>
      cases hc : canon c with
      | some p => simp [firstCanonical, hc]
      | none => simp [firstCanonical, hc, ih]

/-! The claims. -/

/-- C3: `find_available_port` scans the inclusive range 3001 to 3010 in
ascending order: a returned port is in range, bindable, and every smaller
port of the range is not bindable; `none` is returned exactly when no port
of the range is bindable; and any port returned by a successful
`start_backend` lies within 3001 to 3010. -/
theorem find_available_port_spec (b : Nat → Bool) :
    (∀ p, find_available_port b = some p →
        3001 ≤ p ∧ p ≤ 3010 ∧ b p = true ∧
          ∀ q, 3001 ≤ q → q < p → b q = false) ∧
    (find_available_port b = none ↔
        ∀ p, 3001 ≤ p → p ≤ 3010 → b p = false) ∧
    (∀ env slot p, (start_backend env slot).result = Except.ok p →
        3001 ≤ p ∧ p ≤ 3010) := by
  refine ⟨fun p h => ?_, ?_, fun env slot p h => ?_⟩
  · obtain ⟨h1, h2, h3, h4⟩ := scanPorts_eq_some b 10 3001 p h
    exact ⟨h1, by omega, h3, h4⟩
  · rw [find_available_port, scanPorts_eq_none b 10 3001]
    constructor
    · intro hall q hq1 hq2
      exact hall q hq1 (by omega)
    · intro hall q hq1 hq2
      exact hall q hq1 (by omega)
  · have hfind := start_backend_result_ok_port env slot p h
    obtain ⟨h1, h2, _, _⟩ := scanPorts_eq_some env.bindable 10 3001 p hfind
    exact ⟨h1, by omega⟩

/-- C3 witness: with every port bindable, the allocator picks 3001, which
is in range and preceded by no bindable smaller port of the range. -/
theorem find_available_port_spec_witness :
    3001 ≤ 3001 ∧ 3001 ≤ 3010 ∧ (fun (_ : Nat) => true) 3001 = true ∧
      ∀ q, 3001 ≤ q → q < 3001 → (fun (_ : Nat) => true) q = false :=
  (find_available_port_spec (fun (_ : Nat) => true)).1 3001 rfl

/-- C2 counterexample: a `start_backend` call refused because a live child
is tracked returns an error while the slot is not empty — it still holds
the running child — so not every error return leaves the slot Absent. -/
theorem start_backend_error_slot_nonempty_cex :
    (start_backend envW (some childRunning)).result =
        Except.error "Backend is already running" ∧
      (start_backend envW (some childRunning)).slot = some childRunning := by
  constructor <;> rfl

/-- C2 (amended): every `start_backend` error return other than the
`AlreadyRunning` refusal (and with the lock healthy) leaves the slot empty;
the `AlreadyRunning` branch instead keeps the live child tracked
unchanged. -/
theorem start_backend_error_clears_slot (env : Env) (slot : Option Child)
    (e : String) (hlock : env.poisoned = false)
    (herr : (start_backend env slot).result = Except.error e)
    (hne : e ≠ "Backend is already running") :
    (start_backend env slot).slot = none := by
  rcases start_backend_cases env slot hlock with ⟨c, _, _, heq⟩ | heq
  · rw [heq] at herr
    simp at herr
    exact absurd herr.symm hne
  · rw [heq] at herr ⊢
    rcases launchAfterCheck_slot_cases env with hs | ⟨p, hp⟩
    · exact hs
    · rw [hp] at herr
      cases herr

/-- C2 witness: with every port occupied, the call fails with the
no-port-available error and the slot is empty on return. -/
theorem start_backend_error_clears_slot_witness :
    (start_backend envNoPort none).slot = none :=
  start_backend_error_clears_slot envNoPort none
    "No available port in range 3001-3010" rfl rfl (by decide)

/-- C1: a `start_backend` call made while the tracked child is still alive
(`try_wait` reports it has not exited) returns the error
`Backend is already running`, spawns nothing, and leaves the slot contents
untouched. -/
theorem start_backend_already_running (env : Env) (child : Child)
    (hrun : child.status = ChildStatus.running)
    (hlock : env.poisoned = false) :
    start_backend env (some child) =
      ⟨Except.error "Backend is already running", some child, []⟩ := by
  simp [start_backend, firstCriticalSection, hlock, hrun]

/-- C1 witness: the live-child refusal at a concrete environment. -/
theorem start_backend_already_running_witness :
    start_backend envW (some childRunning) =
      ⟨Except.error "Backend is already running", some childRunning, []⟩ :=
  start_backend_already_running envW childRunning rfl rfl

/-- C5: when the liveness probe errors, `start_backend` does not fail
there: the slot is treated as clear and the call proceeds exactly as a call
with an empty slot would, so a probe error never blocks future launches. -/
theorem start_backend_probe_error_resets (env : Env) (child : Child)
    (msg : String) (hst : child.status = ChildStatus.probeErr msg)
    (hlock : env.poisoned = false) :
    start_backend env (some child) = start_backend env none := by
  simp [start_backend, firstCriticalSection, hlock, hst]

/-- C5 witness: the probe-error reset at a concrete environment. -/
theorem start_backend_probe_error_resets_witness :
    start_backend envW (some childProbeErr) = start_backend envW none :=
  start_backend_probe_error_resets envW childProbeErr "EPERM" rfl rfl

/-- C6: at host exit with a child present and the lock acquired, the guard
kills the child, then reaps it, and leaves the slot empty; when the lock
cannot be acquired it performs nothing and changes nothing (and, being a
total function, it cannot panic). -/
theorem lifecycle_guard_exit_behaviour (child : Child) (slot : Option Child) :
    backend_cleanup_plugin_on_event RunEvent.exit true true (some child) =
      (none, [CleanupAction.kill child.pid, CleanupAction.wait child.pid]) ∧
    backend_cleanup_plugin_on_event RunEvent.exit true false slot =
      (slot, []) := by
  constructor <;>
    simp [backend_cleanup_plugin_on_event, cleanupCriticalSection]

/-- C7: the guard is idempotent: a first run with the lock acquired leaves
the slot empty, and a second run on that empty slot performs no kill and no
wait and returns the slot unchanged, whether or not its lock attempt
succeeds. -/
theorem lifecycle_guard_idempotent (slot : Option Child) (lockOk2 : Bool) :
    (backend_cleanup_plugin_on_event RunEvent.exit true true slot).1 =
      none ∧
    backend_cleanup_plugin_on_event RunEvent.exit true lockOk2
        ((backend_cleanup_plugin_on_event RunEvent.exit true true slot).1) =
      (none, []) := by
  cases slot <;> cases lockOk2 <;>
    simp [backend_cleanup_plugin_on_event, cleanupCriticalSection]

/-- C9: the first critical section of `start_backend` only reads the slot:
for every slot state it returns the contents unchanged, having read at most
the pid of the tracked child. -/
theorem first_critical_section_reads_only (slot : Option Child) :
    (firstCriticalSection slot).1 = slot ∧
    (firstCriticalSection slot).2 = slot.map Child.pid := by
  cases slot <;> simp [firstCriticalSection]

/-- C10: whenever the exit-event handler acquires the lock, it sets the
slot to empty unconditionally: no matter what the slot held, afterwards it
is `none` (kill and wait results are discarded by the source, so they
cannot influence this). -/
theorem exit_handler_clears_slot (slot : Option Child) :
    (backend_cleanup_plugin_on_event RunEvent.exit true true slot).1 =
      none := by
  cases slot <;>
    simp [backend_cleanup_plugin_on_event, cleanupCriticalSection]

/-- C4: entry-point resolution evaluates the ordered candidate list of
relative ascents from the executable directory joined with
`packages/backend/src/index.ts`, accepts the first that canonicalises
(exists on disk), falls back to the working-directory path when no
candidate resolves, and when that too is missing the launch fails with the
cannot-locate error and nothing is spawned. -/
theorem entry_point_resolution (env : Env) :
    (∀ dir, env.exeDir = some dir →
        scriptCandidates env.exeDir =
          [dir ++ parentDirs 3 ++ indexTsRel,
           dir ++ parentDirs 4 ++ indexTsRel,
           dir ++ parentDirs 5 ++ indexTsRel]) ∧
    (∀ dir p, env.exeDir = some dir →
        env.canonicalize (dir ++ parentDirs 3 ++ indexTsRel) = some p →
        resolveBackendScript env = some p) ∧
    (∀ dir p, env.exeDir = some dir →
        env.canonicalize (dir ++ parentDirs 3 ++ indexTsRel) = none →
        env.canonicalize (dir ++ parentDirs 4 ++ indexTsRel) = some p →
        resolveBackendScript env = some p) ∧
    (∀ dir p, env.exeDir = some dir →
        env.canonicalize (dir ++ parentDirs 3 ++ indexTsRel) = none →
        env.canonicalize (dir ++ parentDirs 4 ++ indexTsRel) = none →
        env.canonicalize (dir ++ parentDirs 5 ++ indexTsRel) = some p →
        resolveBackendScript env = some p) ∧
    ((∀ c ∈ scriptCandidates env.exeDir, env.canonicalize c = none) →
        env.pathExists indexTsRel = true →
        resolveBackendScript env =
          some ((env.canonicalize indexTsRel).getD indexTsRel)) ∧
    ((∀ c ∈ scriptCandidates env.exeDir, env.canonicalize c = none) →
        env.pathExists indexTsRel = false →
        resolveBackendScript env = none) ∧
    (∀ port appDir, env.poisoned = false →
        find_available_port env.bindable = some port →
        env.appDataDir = Except.ok appDir →
        env.createDirAll appDir = Except.ok () →
        env.openLog (appDir ++ ["backend.log"]) = Except.ok () →
        env.cloneLog = Except.ok () →
        resolveBackendScript env = none →
        start_backend env none =
          ⟨Except.error "Cannot locate packages/backend/src/index.ts",
           none, []⟩) := by
  refine ⟨fun dir hd => ?_,
          fun dir p hd h1 => ?_,
          fun dir p hd h1 h2 => ?_,
          fun dir p hd h1 h2 h3 => ?_,
          fun hall hex => ?_,
          fun hall hex => ?_,
          fun port appDir hlock hport hdir hcreate hopen hclone hscript => ?_⟩
  · simp [scriptCandidates, hd]
  · simp only [List.append_assoc] at h1
    simp [resolveBackendScript, scriptCandidates, firstCanonical, hd, h1]
  · simp only [List.append_assoc] at h1 h2
    simp [resolveBackendScript, scriptCandidates, firstCanonical, hd, h1, h2]
  · simp only [List.append_assoc] at h1 h2 h3
    simp [resolveBackendScript, scriptCandidates, firstCanonical,
          hd, h1, h2, h3]
  · have hnone : firstCanonical env.canonicalize
        (scriptCandidates env.exeDir) = none :=
      (firstCanonical_eq_none env.canonicalize _).mpr hall
    simp [resolveBackendScript, hnone, hex]
  · have hnone : firstCanonical env.canonicalize
        (scriptCandidates env.exeDir) = none :=
      (firstCanonical_eq_none env.canonicalize _).mpr hall
    simp [resolveBackendScript, hnone, hex]
  · simp [start_backend, firstCriticalSection, hlock, launchAfterCheck,
          hport, hdir, hcreate, hopen, hclone, hscript]

/-- C4 witness: with no executable directory and nothing canonicalisable,
resolution takes the working-directory fallback when it exists. -/
theorem entry_point_resolution_witness :
    resolveBackendScript envCwdFallback =
      some ((envCwdFallback.canonicalize indexTsRel).getD indexTsRel) :=
  (entry_point_resolution envCwdFallback).2.2.2.2.1
    (fun c hc => by simp [envCwdFallback, scriptCandidates] at hc) rfl

/-- C8: the `.env` location is the fourth ancestor of the resolved script
joined with `.env`; when it exists the child is spawned with a matching
`--env-file=` argument, and when it does not exist the argument is omitted
and the call still proceeds to the spawn, whose outcome alone decides the
result — absence of the file is not an error. -/
theorem env_file_handling (env : Env) (script root : Path) (port : Nat)
    (appDir : Path)
    (hroot : (((parent script).bind parent).bind parent).bind parent =
      some root)
    (hlock : env.poisoned = false)
    (hport : find_available_port env.bindable = some port)
    (hdir : env.appDataDir = Except.ok appDir)
    (hcreate : env.createDirAll appDir = Except.ok ())
    (hopen : env.openLog (appDir ++ ["backend.log"]) = Except.ok ())
    (hclone : env.cloneLog = Except.ok ())
    (hscript : resolveBackendScript env = some script) :
    envFilePath script = some (root ++ [".env"]) ∧
    (env.pathExists (root ++ [".env"]) = true →
      (start_backend env none).spawned =
        [⟨"bun", ["run", "--env-file=" ++ pathDisplay (root ++ [".env"]),
                  pathDisplay script, "--port", toString port]⟩]) ∧
    (env.pathExists (root ++ [".env"]) = false →
      (start_backend env none).spawned =
        [⟨"bun", ["run", pathDisplay script, "--port", toString port]⟩] ∧
      (start_backend env none).result =
        (match env.spawn ⟨"bun", ["run", pathDisplay script, "--port",
            toString port]⟩ with
         | Except.ok _ => Except.ok port
         | Except.error e =>
             Except.error ("Failed to spawn bun backend: " ++ e))) := by
  have harg : envFilePath script = some (root ++ [".env"]) := by
    simp [envFilePath, hroot]
  have hrun : start_backend env none =
      installHandle env port ⟨"bun", buildArgs env.pathExists script port⟩ := by
    simp [start_backend, firstCriticalSection, hlock, launchAfterCheck,
          hport, hdir, hcreate, hopen, hclone, hscript]
  refine ⟨harg, fun hex => ?_, fun hnex => ⟨?_, ?_⟩⟩
  · rw [hrun]
    have hargs : buildArgs env.pathExists script port =
        ["run", "--env-file=" ++ pathDisplay (root ++ [".env"]),
         pathDisplay script, "--port", toString port] := by
      simp [buildArgs, harg, hex]
    rw [hargs]
    cases hsp : env.spawn ⟨"bun", ["run",
        "--env-file=" ++ pathDisplay (root ++ [".env"]),
        pathDisplay script, "--port", toString port]⟩ with
    | error e => simp [installHandle, hsp]
    | ok child => simp [installHandle, hsp, hlock]
  · rw [hrun]
    have hargs : buildArgs env.pathExists script port =
        ["run", pathDisplay script, "--port", toString port] := by
      simp [buildArgs, harg, hnex]
    rw [hargs]
    cases hsp : env.spawn ⟨"bun", ["run", pathDisplay script, "--port",
        toString port]⟩ with
    | error e => simp [installHandle, hsp]
    | ok child => simp [installHandle, hsp, hlock]
  · rw [hrun]
    have hargs : buildArgs env.pathExists script port =
        ["run", pathDisplay script, "--port", toString port] := by
      simp [buildArgs, harg, hnex]
    rw [hargs]
    cases hsp : env.spawn ⟨"bun", ["run", pathDisplay script, "--port",
        toString port]⟩ with
    | error e => simp [installHandle, hsp]
    | ok child => simp [installHandle, hsp, hlock]

/-- C8 witness: with the script resolved through the working-directory
fallback and every existence probe succeeding, the `.env` at the resolved
workspace root is passed to the child via `--env-file=`. -/
theorem env_file_handling_witness :
    (start_backend envCwdFallback none).spawned =
      [⟨"bun", ["run", "--env-file=" ++ pathDisplay (([] : Path) ++ [".env"]),
                pathDisplay indexTsRel, "--port", toString 3001]⟩] :=
  ((env_file_handling envCwdFallback indexTsRel [] 3001 ["data"]
      rfl rfl rfl rfl rfl rfl rfl rfl).2.1) rfl

end ToshikBabe
